import Mathlib

/-!
Verification of the 3D-spreadsheet workspace core against its design
specification.  The development shallowly embeds the layout math, the pose
animation step, the grid-surface resize/clip handlers and the artifact
lifecycle state machine of the source (`Scene`, `ArtifactBoard`,
`Spreadsheet`, `App`).  JavaScript numbers are modelled as exact rationals
(`ℚ`); timestamps (`Date.now()`) are modelled by a strictly increasing
counter carried in the scene state; calls to `Math.random()` are modelled by
an explicit `MockRand` parameter supplying the drawn values.
-/

/-! ### Configuration enumerations (`App.tsx`) -/

/-- `VisualizationStrategy` from `App.tsx`:
`'spatial-sidebar' | 'background-tabs' | 'spatial-grouping' | 'immersive-gallery'`. -/
inductive VisualizationStrategy where
  | spatialSidebar
  | backgroundTabs
  | spatialGrouping
  | immersiveGallery
deriving DecidableEq, Repr

/-- `InteractionStrategy` from `App.tsx`: `'ui-overlay' | 'contextual-menu'`. -/
inductive InteractionStrategy where
  | uiOverlay
  | contextualMenu
deriving DecidableEq, Repr

/-- `ProgressStrategy` from `App.tsx`:
`'none' | 'spreadsheet-overlay' | 'artifact-streaming'`. -/
inductive ProgressStrategy where
  | none
  | spreadsheetOverlay
  | artifactStreaming
deriving DecidableEq, Repr

/-! ### Data model (`types.ts`) -/

/-- `PlotData.type`: `'bar' | 'scatter'`. -/
inductive PlotType where
  | bar
  | scatter
deriving DecidableEq, Repr

/-- `PlotData` from `types.ts`. -/
structure PlotData where
  id : String
  ty : PlotType
  title : String
  data : List ℚ
deriving DecidableEq, Repr

/-- `Artifact.status`: `'pending' | 'complete'`. -/
inductive ArtifactStatus where
  | pending
  | complete
deriving DecidableEq, Repr

/-- `Artifact` from `types.ts`.  The `id` string `artifact-${Date.now()}` is
modelled by the numeric timestamp itself; `progress?` being absent is
modelled by `Option.none`. -/
structure Artifact where
  id : Nat
  title : String
  summary : String
  plots : List PlotData
  createdAt : Nat
  status : ArtifactStatus
  progress : Option ℚ
deriving DecidableEq, Repr

/-! ### Mock data generator (`Scene.tsx`, `generateMockArtifact`) -/

/-- The values drawn from `Math.random()` during one `generateMockArtifact`
call: the index used to pick a type when none is given, the synthetic plot
samples (`plot index → sample index → value`), and the random numbers
rendered into the summary text. -/
structure MockRand where
  pickType : Nat
  dataAt : Nat → Nat → ℚ
  summaryText : String

/-- JavaScript `a || b` on an optional string: `b` when `a` is absent or
empty (falsy), otherwise the string itself. -/
def jsOrElse (a : Option String) (b : String) : String :=
  match a with
  | Option.none => b
  | Option.some s => if s = "" then b else s

/-- The `types` array in `generateMockArtifact`. -/
def mockTypes : List String :=
  ["Descriptive Stats", "Linear Regression", "Clustering", "Time Series"]

/-- The `defaultTitles` array in `generateMockArtifact`. -/
def defaultTitles : List String :=
  ["Distribution", "Residuals", "Feature Importance", "Correlation", "Variance", "Outliers"]

/-- `generateMockArtifact(id, type?, numPlots = 6)` from `Scene.tsx`: builds a
`complete` artifact with `numPlots` plots alternating bar/scatter, ten random
samples each, and no `progress` field.  `now` models the `Date.now()` read
for `createdAt`; the random summary text is abstracted into
`rnd.summaryText`. -/
def generateMockArtifact (rnd : MockRand) (id : Nat) (ty : Option String)
    (numPlots : Nat) (now : Nat) : Artifact :=
  let selectedType := jsOrElse ty (mockTypes.getD (rnd.pickType % 4) "Descriptive Stats")
  let plots : List PlotData := (List.range numPlots).map (fun i =>
    { id := "plot-" ++ toString (i + 1) ++ "-" ++ toString id
      ty := if i % 2 = 0 then PlotType.bar else PlotType.scatter
      title := defaultTitles.getD i ("Analysis Plot " ++ toString (i + 1))
      data := (List.range 10).map (rnd.dataAt i) })
  { id := id
    title := selectedType ++ " Analysis"
    summary := rnd.summaryText
    plots := plots
    createdAt := now
    status := ArtifactStatus.complete
    progress := Option.none }

/-! ### Pose animation controller (`ArtifactBoard.tsx`, `useFrame` callback) -/

/-- `THREE.MathUtils.lerp(x, y, t) = (1 - t) * x + t * y`.  Note that the
library routine does not clamp `t`. -/
def mathUtilsLerp (x y t : ℚ) : ℚ := (1 - t) * x + t * y

/-- A pose: position, per-axis rotation, uniform scale, opacity. -/
structure Pose where
  posX : ℚ
  posY : ℚ
  posZ : ℚ
  rotX : ℚ
  rotY : ℚ
  rotZ : ℚ
  scale : ℚ
  opacity : ℚ
deriving DecidableEq, Repr

/-- The animation rate constant used in every `lerp` call of the `useFrame`
callback: the factor is `6 * delta`. -/
def poseRate : ℚ := 6

/-- One `useFrame` tick from `ArtifactBoard.tsx`: position advances by
`Vector3.lerp(target, 6 * delta)` (i.e. `current += (target - current) * α`),
scale/rotation/opacity by `THREE.MathUtils.lerp(current, target, 6 * delta)`.
No component clamps the interpolation factor. -/
def advancePose (cur tgt : Pose) (delta : ℚ) : Pose :=
  let α := poseRate * delta
  { posX := cur.posX + (tgt.posX - cur.posX) * α
    posY := cur.posY + (tgt.posY - cur.posY) * α
    posZ := cur.posZ + (tgt.posZ - cur.posZ) * α
    rotX := mathUtilsLerp cur.rotX tgt.rotX α
    rotY := mathUtilsLerp cur.rotY tgt.rotY α
    rotZ := mathUtilsLerp cur.rotZ tgt.rotZ α
    scale := mathUtilsLerp cur.scale tgt.scale α
    opacity := mathUtilsLerp cur.opacity tgt.opacity α }

/-- Modelled from the spec: the update rule the specification claims,
`current += (target - current) * min(1, rate * dt)`, i.e. the interpolation
factor clamped to 1.  Stated for comparison with `advancePose`, which embeds
the source. -/
def specAdvancePose (cur tgt : Pose) (delta : ℚ) : Pose :=
  let α := min 1 (poseRate * delta)
  { posX := cur.posX + (tgt.posX - cur.posX) * α
    posY := cur.posY + (tgt.posY - cur.posY) * α
    posZ := cur.posZ + (tgt.posZ - cur.posZ) * α
    rotX := cur.rotX + (tgt.rotX - cur.rotX) * α
    rotY := cur.rotY + (tgt.rotY - cur.rotY) * α
    rotZ := cur.rotZ + (tgt.rotZ - cur.rotZ) * α
    scale := cur.scale + (tgt.scale - cur.scale) * α
    opacity := cur.opacity + (tgt.opacity - cur.opacity) * α }

/-- `c` moves toward goal `g` landing at `v`: `v` lies between `c` and `g`
and is no farther from `g` than `c` was. -/
def approaches (c g v : ℚ) : Prop :=
  min c g ≤ v ∧ v ≤ max c g ∧ |v - g| ≤ |c - g|

/-! ### Viewport partitioner (`Scene.tsx`, layout architecture math) -/

/-- A rectangular 3D allocation: center x/y, width, height. -/
structure LayoutBox where
  x : ℚ
  y : ℚ
  width : ℚ
  height : ℚ
deriving DecidableEq, Repr

/-- Result of the layout math in `Scene`: the grid box (fed to `Spreadsheet`
as `tableX/tableY/tableWidth/tableHeight`) and the stage box (fed to
`ArtifactBoard` as `boundaryX/boundaryY/boundaryWidth/boundaryHeight`),
plus the margin and clamped bottom bound. -/
structure SceneLayout where
  grid : LayoutBox
  stage : LayoutBox
  margin3D : ℚ
  bottomY : ℚ
deriving DecidableEq, Repr

/-- The layout architecture math of `Scene.tsx`, lines 1073–1109 of the
combined source: pixel reservations converted to world units, two equal
columns separated by the margin, vertical extent clamped against the floor
plane and to a minimum height of 2. -/
def sceneLayout (viewportWidth viewportHeight sizeWidth sizeHeight : ℚ) : SceneLayout :=
  let toolsPanelPx : ℚ := 352
  let marginPx : ℚ := 32
  let toolsPanel3D := toolsPanelPx / sizeWidth * viewportWidth
  let margin3D := marginPx / sizeWidth * viewportWidth
  let availableWidth := viewportWidth - toolsPanel3D - margin3D
  let centerGap3D := margin3D
  let tableWidth := (availableWidth - centerGap3D) / 2
  let graphicsWidth := tableWidth
  let topMarginRatio : ℚ := 20 / 100
  let topY := viewportHeight / 2 - viewportHeight * topMarginRatio
  let bottomMarginPx : ℚ := 32
  let bottomMargin3D := bottomMarginPx / sizeHeight * viewportHeight
  let floorY : ℚ := -(19 / 10)
  let bottomY := max (-(viewportHeight / 2) + bottomMargin3D) floorY
  let tableHeight := max (topY - bottomY) 2
  let tableX := -(viewportWidth / 2) + margin3D + tableWidth / 2
  let tableY := bottomY + tableHeight / 2
  let graphicsX := tableX + tableWidth / 2 + centerGap3D + graphicsWidth / 2
  { grid := { x := tableX, y := tableY, width := tableWidth, height := tableHeight }
    stage := { x := graphicsX, y := tableY, width := graphicsWidth, height := tableHeight }
    margin3D := margin3D
    bottomY := bottomY }

/-! ### Grid surface resize / clip / cell generation (`Spreadsheet.tsx`) -/

/-- Cell metrics from `Spreadsheet.tsx`. -/
def cellWidth : ℚ := 25 / 100

/-- `cellHeight = 0.08`. -/
def cellHeight : ℚ := 8 / 100

/-- `cellDepth = 0.02`. -/
def cellDepth : ℚ := 2 / 100

/-- `gap = 0.01`. -/
def cellGap : ℚ := 1 / 100

/-- `containerDepth = 0.1`. -/
def containerDepth : ℚ := 10 / 100

/-- `topMargin = 0.5` — the explicit bound reserved for the window header
and buttons. -/
def topMargin : ℚ := 1 / 2

/-- JavaScript `Math.round`: round half away from zero toward positive
infinity, `⌊x + 1/2⌋`. -/
def jsRound (q : ℚ) : ℤ := ⌊q + 1 / 2⌋

/-- The `'resize'` branch of `handleResizePointerMove`: the pointer delta is
converted to whole-cell increments and the new column/row counts are clamped
below at 2. -/
def resizeMove (initialCols initialRows : ℤ) (dx dy : ℚ) : ℤ × ℤ :=
  let dCols := jsRound (dx / (cellWidth + cellGap))
  let dRows := jsRound (-dy / (cellHeight + cellGap))
  (max 2 (initialCols + dCols), max 2 (initialRows + dRows))

/-- The `'clip'` branch of `handleResizePointerMove`: the clip extent follows
the pointer delta, clamped below at one cell
(`cellWidth + gap` × `cellHeight + gap`). -/
def clipMove (initialClipWidth initialClipHeight : ℚ) (dx dy : ℚ) : ℚ × ℚ :=
  (max (cellWidth + cellGap) (initialClipWidth + dx),
   max (cellHeight + cellGap) (initialClipHeight - dy))

/-- One generated spreadsheet cell: row/column id, world position, header
flag (row 0 or column 0). -/
structure Cell where
  row : Nat
  col : Nat
  x : ℚ
  y : ℚ
  z : ℚ
  isHeader : Bool
deriving DecidableEq, Repr

/-- The `cells` `useMemo` of `Spreadsheet.tsx`: iterate rows × cols, place
each cell from the top-left start point, and drop cells whose right or
bottom edge falls outside the current (possibly clipped) container bounds
by more than the 0.001 tolerance. -/
def generateCells (rows cols : Nat) (currentWidth currentHeight : ℚ) : List Cell :=
  let startX := -(currentWidth / 2) + cellWidth / 2
  let startY := currentHeight / 2 - cellHeight / 2 - topMargin / 2
  let rightBound := currentWidth / 2
  let bottomBound := -(currentHeight / 2)
  (List.range rows).flatMap (fun (r : Nat) =>
    (List.range cols).filterMap (fun (c : Nat) =>
      let x := startX + ((c : Nat) : ℚ) * (cellWidth + cellGap)
      let y := startY - ((r : Nat) : ℚ) * (cellHeight + cellGap)
      let cellRight := x + cellWidth / 2
      let cellBottom := y - cellHeight / 2
      if cellRight > rightBound + 1 / 1000 ∨ cellBottom < bottomBound - 1 / 1000 then
        Option.none
      else
        Option.some
          { row := r, col := c, x := x, y := y
            z := containerDepth / 2 + cellDepth / 2
            isHeader := r = 0 ∨ c = 0 }))

/-! ### Spatial-grouping placement (`ArtifactBoard.tsx`, grouping branch) -/

/-- Substring search over character lists: does `kw` occur contiguously
inside `l`?  Models JavaScript `String.prototype.includes`. -/
def containsSub (kw : List Char) : List Char → Bool
  | [] => kw.isEmpty
  | c :: t => kw.isPrefixOf (c :: t) || containsSub kw t

/-- `title.toLowerCase().includes(kw)` — the case-insensitive keyword test
used by the grouping branch. -/
def titleHasKeyword (title : String) (kw : String) : Bool :=
  containsSub kw.data (title.data.map Char.toLower)

/-- The `categoryIndex` computation of the `'spatial-grouping'` branch:
four keywords are tested in order against the lowercased title, and an
unmatched title falls back to `inactiveIndex % 4`. -/
def categoryIndex (title : String) (inactiveIndex : Nat) : Nat :=
  if titleHasKeyword title "descriptive" then 0
  else if titleHasKeyword title "linear" then 1
  else if titleHasKeyword title "cluster" then 2
  else if titleHasKeyword title "time" then 3
  else inactiveIndex % 4

/-- The target position and yaw produced by the `'spatial-grouping'` branch:
the bucket picks a fixed x/z/rotation slot along the arc, and the stack
offsets grow with the inactive rank (`0.15 · rank` in x and y,
`-0.3 · rank` in z). -/
def groupingPose (title : String) (inactiveIndex : Nat)
    (boundaryWidth boundaryX boundaryY boundaryHeight : ℚ) : (ℚ × ℚ × ℚ) × ℚ :=
  let k := categoryIndex title inactiveIndex
  let spanRange := boundaryWidth * (8 / 10)
  let startBinX := boundaryX - spanRange / 2
  let stride := spanRange / 3
  let xPositions : List ℚ :=
    [startBinX, startBinX + stride, startBinX + stride * 2, startBinX + stride * 3]
  let zPositions : List ℚ := [-2, -4, -4, -2]
  let rotYPositions : List ℚ := [25 / 100, 8 / 100, -(8 / 100), -(25 / 100)]
  let baseX := xPositions.getD k 0
  let baseY := boundaryY + boundaryHeight * (25 / 100)
  let baseZ := zPositions.getD k 0
  let stackX := ((inactiveIndex : Nat) : ℚ) * (15 / 100)
  let stackY := ((inactiveIndex : Nat) : ℚ) * (15 / 100)
  let stackZ := ((inactiveIndex : Nat) : ℚ) * (-(30 / 100))
  ((baseX + stackX, baseY + stackY, baseZ + stackZ), rotYPositions.getD k 0)

/-! ### Artifact lifecycle state machine (`Scene.tsx`) -/

/-- One in-flight `setInterval` streaming timer: the target artifact id, the
closure-local `progress` accumulator, and the captured `type`/`numPlots`
arguments. -/
structure StreamTimer where
  id : Nat
  progress : ℚ
  ty : Option String
  numPlots : Option Nat
deriving DecidableEq

/-- One in-flight `setTimeout` fixed-delay completion with its captured
arguments. -/
structure DelayTimer where
  ty : Option String
  numPlots : Option Nat
deriving DecidableEq

/-- The `Scene` component state: the ordered artifact collection, the active
artifact id, the `isProcessing` flag, the outstanding timers, and the
strictly increasing `Date.now()` abstraction used to mint fresh ids. -/
structure SceneState where
  artifacts : List Artifact
  activeArtifactId : Option Nat
  isProcessing : Bool
  streamTimers : List StreamTimer
  delayTimers : List DelayTimer
  nextId : Nat

/-- Initial scene state: empty collection, no active artifact, not
processing. -/
def initialSceneState : SceneState :=
  { artifacts := [], activeArtifactId := Option.none, isProcessing := false
    streamTimers := [], delayTimers := [], nextId := 0 }

/-- `runAlgorithm(type?, numPlots?)` from `Scene.tsx`.  It sets
`isProcessing` and then branches on the progress strategy:
`'none'` synchronously prepends a complete artifact, activates it and clears
the flag; `'artifact-streaming'` prepends a pending artifact with progress 0,
activates it and starts an interval timer; any other strategy (the
`'spreadsheet-overlay'` fallthrough) only schedules a delayed completion.
Note that the function never consults `isProcessing` before starting. -/
def runAlgorithm (progressStrategy : ProgressStrategy) (ty : Option String)
    (numPlots : Option Nat) (rnd : MockRand) (s : SceneState) : SceneState :=
  match progressStrategy with
  | ProgressStrategy.none =>
      let newId := s.nextId
      let newArtifact := generateMockArtifact rnd newId ty (numPlots.getD 6) s.nextId
      { s with artifacts := newArtifact :: s.artifacts
               activeArtifactId := Option.some newId
               isProcessing := false
               nextId := s.nextId + 1 }
  | ProgressStrategy.artifactStreaming =>
      let newId := s.nextId
      let pendingArtifact : Artifact :=
        { id := newId, title := jsOrElse ty "Analysis" ++ " (Running...)"
          summary := "", plots := [], createdAt := s.nextId
          status := ArtifactStatus.pending, progress := Option.some 0 }
      { s with artifacts := pendingArtifact :: s.artifacts
               activeArtifactId := Option.some newId
               isProcessing := true
               streamTimers :=
                 { id := newId, progress := 0, ty := ty, numPlots := numPlots } :: s.streamTimers
               nextId := s.nextId + 1 }
  | ProgressStrategy.spreadsheetOverlay =>
      { s with isProcessing := true
               delayTimers := { ty := ty, numPlots := numPlots } :: s.delayTimers }

/-- One firing of the streaming interval for artifact id `i`: the closure
increments its accumulator by the fixed step 0.1; if the result reaches 1
the interval is cleared, the pending entry is replaced in place by the
complete mock artifact and `isProcessing` is cleared, otherwise the entry's
`progress` is updated.  The accumulator arithmetic is idealized here to
exact rationals (adequate for the branching structure of the transition);
the program actually accumulates in IEEE-754 binary64, which is modelled
exactly by `progressAfterFirings` below and decides on which firing the
threshold is first crossed. -/
def streamTick (rnd : MockRand) (now : Nat) (i : Nat) (s : SceneState) : SceneState :=
  match s.streamTimers.find? (fun t => t.id == i) with
  | Option.none => s
  | Option.some t =>
      let p := t.progress + 1 / 10
      if 1 ≤ p then
        { s with artifacts := s.artifacts.map (fun a =>
                   if a.id = i then generateMockArtifact rnd i t.ty (t.numPlots.getD 6) now else a)
                 streamTimers := s.streamTimers.filter (fun u => u.id ≠ i)
                 isProcessing := false }
      else
        { s with artifacts := s.artifacts.map (fun a =>
                   if a.id = i then { a with progress := Option.some p } else a)
                 streamTimers := s.streamTimers.map (fun u =>
                   if u.id = i then { u with progress := p } else u) }

/-- `k` successive firings of the streaming timer for artifact id `i`. -/
def streamTickN (rnd : MockRand) (now : Nat) (i : Nat) : Nat → SceneState → SceneState
  | 0, s => s
  | k + 1, s => streamTick rnd now i (streamTickN rnd now i k s)

/-- The `setTimeout` body of the fixed-delay (`'spreadsheet-overlay'` /
default) branch firing: a fresh complete artifact is prepended and
activated and `isProcessing` is cleared. -/
def fireDelay (rnd : MockRand) (s : SceneState) : SceneState :=
  match s.delayTimers with
  | [] => s
  | d :: rest =>
      let newId := s.nextId
      let newArtifact := generateMockArtifact rnd newId d.ty (d.numPlots.getD 6) s.nextId
      { s with artifacts := newArtifact :: s.artifacts
               activeArtifactId := Option.some newId
               isProcessing := false
               delayTimers := rest
               nextId := s.nextId + 1 }

/-- `handleArtifactClick(id)` from `Scene.tsx`: only sets the active id. -/
def clickArtifact (i : Nat) (s : SceneState) : SceneState :=
  { s with activeArtifactId := Option.some i }

/-- The `isProcessing` prop handed to `Spreadsheet` by `Scene`:
`isProcessing && progressStrategy === 'spreadsheet-overlay'`. -/
def spreadsheetIsProcessing (progressStrategy : ProgressStrategy) (s : SceneState) : Bool :=
  s.isProcessing && progressStrategy = ProgressStrategy.spreadsheetOverlay

/-- A run request submitted through the grid surface's context menu
(`handleContextMenu` guard followed by `handleRun`): the request is dropped
when the interaction strategy is not `'contextual-menu'` or the
`Spreadsheet`'s `isProcessing` prop is set; otherwise `runAlgorithm` fires
with the chosen type and no explicit `numPlots`. -/
def contextMenuRun (interactionStrategy : InteractionStrategy)
    (progressStrategy : ProgressStrategy) (ty : String) (rnd : MockRand)
    (s : SceneState) : SceneState :=
  if interactionStrategy ≠ InteractionStrategy.contextualMenu
      ∨ spreadsheetIsProcessing progressStrategy s then s
  else runAlgorithm progressStrategy (Option.some ty) Option.none rnd s

/-- The ids of the artifacts in collection order. -/
def idsOf (s : SceneState) : List Nat := s.artifacts.map Artifact.id

/-- The non-active entries of the ordered collection, in order — the list
the `Scene` render pass filters to compute `inactiveIndex`. -/
def inactiveArtifacts (s : SceneState) : List Artifact :=
  s.artifacts.filter (fun a => Option.some a.id ≠ s.activeArtifactId)

/-- `inactiveIndex` of one artifact:
`artifacts.filter(a => a.id !== activeArtifactId).indexOf(artifact)`. -/
def inactiveRankOf (s : SceneState) (a : Artifact) : Nat :=
  (inactiveArtifacts s).indexOf a

/-- The derived ranks of all non-active artifacts, in collection order. -/
def inactiveRanks (s : SceneState) : List Nat :=
  (inactiveArtifacts s).map (inactiveRankOf s)

/-- One scene transition: a run request under some policy, a delayed
completion firing, a streaming-timer firing, or a user click on a rendered
(hence present) artifact. -/
inductive SceneStep : SceneState → SceneState → Prop
  | run (progressStrategy : ProgressStrategy) (ty : Option String)
      (numPlots : Option Nat) (rnd : MockRand) (s : SceneState) :
      SceneStep s (runAlgorithm progressStrategy ty numPlots rnd s)
  | fire (rnd : MockRand) (s : SceneState) : SceneStep s (fireDelay rnd s)
  | tick (rnd : MockRand) (now i : Nat) (s : SceneState) :
      SceneStep s (streamTick rnd now i s)
  | click (i : Nat) (s : SceneState) (h : i ∈ idsOf s) :
      SceneStep s (clickArtifact i s)

/-- States reachable from the initial scene state. -/
inductive SceneReachable : SceneState → Prop
  | init : SceneReachable initialSceneState
  | step {s s' : SceneState} : SceneReachable s → SceneStep s s' → SceneReachable s'

/-! ### Concrete scenario states -/

/-- A fixed choice of random draws used to build concrete scenario states. -/
def cRnd : MockRand := { pickType := 0, dataAt := fun _ _ => 0, summaryText := "ok" }

/-- A streaming run requested on the empty initial collection. -/
def streamRun (rnd : MockRand) (ty : Option String) : SceneState :=
  runAlgorithm ProgressStrategy.artifactStreaming ty Option.none rnd initialSceneState

/-- Three immediate runs with a user click in between: run (id 0), run
(id 1), click the artifact with id 0, run (id 2).  In the state before the
last run the active artifact (id 0) sits at the back of the collection. -/
def c7ClickedState : SceneState :=
  clickArtifact 0
    (runAlgorithm ProgressStrategy.none (Option.some "A") (Option.some 0) cRnd
      (runAlgorithm ProgressStrategy.none (Option.some "A") (Option.some 0) cRnd
        initialSceneState))

/-- The state after the last run of the `c7ClickedState` scenario. -/
def c7FinalState : SceneState :=
  runAlgorithm ProgressStrategy.none (Option.some "A") (Option.some 0) cRnd c7ClickedState

/-- The scene invariant maintained by every transition: artifact ids are
distinct and below the id counter, the active id (when set) names a present
artifact, and a nonempty collection always has an active id. -/
structure SceneInv (s : SceneState) : Prop where
  nodup : (idsOf s).Nodup
  bounded : ∀ a ∈ s.artifacts, a.id < s.nextId
  activeMem : ∀ i, s.activeArtifactId = Option.some i → i ∈ idsOf s
  activeSome : s.artifacts ≠ [] → s.activeArtifactId ≠ Option.none

/-! ### Binary64 model of the streaming accumulator

JavaScript numbers are IEEE-754 binary64 doubles, so the streaming timer's
`progress += 0.1` accumulates rounding error.  The model below performs the
addition exactly as binary64 does (align exponents, add significands
exactly, round to 53 bits with round-to-nearest ties-to-even) and is used to
determine on which firing the `progress >= 1` test first succeeds. -/

/-- A non-negative binary64 value `m · 2^e` (zero is `m = 0`). -/
structure FP where
  m : Nat
  e : Int
deriving DecidableEq, Repr

/-- Fuelled count of halvings needed to bring a significand below `2^53`. -/
def shiftCount : Nat → Nat → Nat
  | 0, _ => 0
  | fuel + 1, s => if s < 2 ^ 53 then 0 else shiftCount fuel (s / 2) + 1

/-- Round a non-negative integer significand at exponent `e` to 53 bits,
round-to-nearest ties-to-even (the IEEE-754 default). -/
def fpRound (s : Nat) (e : Int) : FP :=
  let k := shiftCount 100 s
  if k = 0 then { m := s, e := e }
  else
    let q := s / 2 ^ k
    let r := s % 2 ^ k
    let half := 2 ^ (k - 1)
    let q2 := if half < r then q + 1
      else if r < half then q
      else if q % 2 = 0 then q else q + 1
    if q2 = 2 ^ 53 then { m := 2 ^ 52, e := e + k + 1 } else { m := q2, e := e + k }

/-- Binary64 addition of non-negative values: align exponents, add the
significands exactly, round once to 53 bits. -/
def fpAdd (a b : FP) : FP :=
  if b.e ≤ a.e then fpRound (a.m * 2 ^ (a.e - b.e).toNat + b.m) b.e
  else fpRound (b.m * 2 ^ (b.e - a.e).toNat + a.m) a.e

/-- The binary64 double nearest 0.1: `3602879701896397 · 2⁻⁵⁵`. -/
def fp01 : FP := { m := 3602879701896397, e := -55 }

/-- The JavaScript test `progress >= 1` on a non-negative double. -/
def fpGeOne (a : FP) : Bool :=
  if 0 ≤ a.e then 1 ≤ a.m else 2 ^ (-a.e).toNat ≤ a.m

/-- The exact rational value of a binary64 model value. -/
def fpVal (a : FP) : ℚ := (a.m : ℚ) * (2 : ℚ) ^ a.e

/-- The streaming closure's accumulator after `n` firings: `progress += 0.1`
performed `n` times in binary64 starting from 0. -/
def progressAfterFirings : Nat → FP
  | 0 => { m := 0, e := 0 }
  | n + 1 => fpAdd (progressAfterFirings n) fp01

/-! ### General list lemmas -/

/-- Mapping each element of a duplicate-free list to its own index yields
exactly `0, 1, …, length - 1`. -/
theorem nodup_map_indexOf {α : Type} [DecidableEq α] (l : List α) (h : l.Nodup) :
    l.map (fun a => l.indexOf a) = List.range l.length := by
  induction l with
  | nil => simp
  | cons a t ih =>
      rw [List.nodup_cons] at h
      obtain ⟨ha, ht⟩ := h
      have h2 : ∀ x ∈ t, (a :: t).indexOf x = t.indexOf x + 1 := by
        intro x hx
        have hax : a ≠ x := fun e => ha (e ▸ hx)
        simpa using List.indexOf_cons_ne t hax
      calc (a :: t).map (fun x => (a :: t).indexOf x)
          = (a :: t).indexOf a :: t.map (fun x => (a :: t).indexOf x) := by simp
        _ = 0 :: t.map (fun x => t.indexOf x + 1) := by
            rw [List.indexOf_cons_self]
            congr 1
            exact List.map_congr_left h2
        _ = 0 :: (t.map (fun x => t.indexOf x)).map (fun n => n + 1) := by
            rw [List.map_map]
            rfl
        _ = 0 :: (List.range t.length).map (fun n => n + 1) := by rw [ih ht]
        _ = List.range (t.length + 1) := by
            rw [List.range_succ_eq_map]
        _ = List.range (a :: t).length := by simp

/-- Splitting a list by a Boolean predicate preserves total length. -/
theorem length_filter_pos_neg {α : Type} (l : List α) (p : α → Bool) :
    (l.filter p).length + (l.filter (fun a => !(p a))).length = l.length := by
  induction l with
  | nil => simp
  | cons a t ih => by_cases h : p a <;> simp [List.filter_cons, h] <;> omega

/-- In a collection with duplicate-free ids, filtering for a present id
finds exactly one artifact. -/
theorem filter_id_eq_length_one (l : List Artifact) (i : Nat)
    (hnd : (l.map Artifact.id).Nodup) (hm : i ∈ l.map Artifact.id) :
    (l.filter (fun a => a.id = i)).length = 1 := by
  induction l with
  | nil => simp at hm
  | cons a t ih =>
      rw [List.map_cons, List.nodup_cons] at hnd
      obtain ⟨ha, ht⟩ := hnd
      by_cases hai : a.id = i
      · have hnone : t.filter (fun b => b.id = i) = [] := by
          rw [List.filter_eq_nil_iff]
          intro b hb
          simp only [decide_eq_true_eq]
          intro hbi
          exact ha (by rw [← hai] at hbi; exact hbi ▸ List.mem_map_of_mem Artifact.id hb)
        simp [List.filter_cons, hai, hnone]
      · have hm' : i ∈ t.map Artifact.id := by
          rcases List.mem_cons.1 hm with h | h
          · exact absurd h.symm hai
          · exact h
        simpa [List.filter_cons, hai] using ih ht hm'

/-! ### The scene invariant is maintained -/

/-- The initial scene state satisfies the invariant. -/
theorem sceneInv_init : SceneInv initialSceneState := by
  constructor <;> simp [initialSceneState, idsOf]

/-- Replacing artifacts in place (id-preserving map) and adjusting the flag
and timers keeps the invariant. -/
theorem sceneInv_update_misc (s : SceneState) (h : SceneInv s) (f : Artifact → Artifact)
    (hf : ∀ a, (f a).id = a.id) (b : Bool) (st : List StreamTimer) :
    SceneInv { s with artifacts := s.artifacts.map f, streamTimers := st, isProcessing := b } := by
  have hids : (s.artifacts.map f).map Artifact.id = s.artifacts.map Artifact.id := by
    rw [List.map_map]
    exact List.map_congr_left fun a _ => hf a
  constructor
  · show ((s.artifacts.map f).map Artifact.id).Nodup
    rw [hids]
    exact h.nodup
  · intro a ha
    obtain ⟨b', hb', rfl⟩ := List.mem_map.1 ha
    show (f b').id < s.nextId
    rw [hf]
    exact h.bounded b' hb'
  · intro i hi
    show i ∈ (s.artifacts.map f).map Artifact.id
    rw [hids]
    exact h.activeMem i hi
  · intro hne
    apply h.activeSome
    intro hnil
    exact hne (by rw [hnil]; rfl)

/-- Prepending a fresh artifact and activating it keeps the invariant. -/
theorem sceneInv_prepend (s : SceneState) (h : SceneInv s) (a : Artifact)
    (ha : a.id = s.nextId) (b : Bool) (st : List StreamTimer) (dt : List DelayTimer) :
    SceneInv { s with artifacts := a :: s.artifacts
                      activeArtifactId := Option.some s.nextId
                      isProcessing := b, streamTimers := st, delayTimers := dt
                      nextId := s.nextId + 1 } := by
  constructor
  · show ((a :: s.artifacts).map Artifact.id).Nodup
    rw [List.map_cons, List.nodup_cons, ha]
    refine ⟨?_, h.nodup⟩
    intro hmem
    obtain ⟨b', hb', hid⟩ := List.mem_map.1 hmem
    exact absurd hid (Nat.ne_of_lt (h.bounded b' hb'))
  · intro x hx
    rcases List.mem_cons.1 hx with rfl | hx'
    · show x.id < s.nextId + 1
      rw [ha]
      exact Nat.lt_succ_self _
    · exact Nat.lt_succ_of_lt (h.bounded x hx')
  · intro i hi
    have hie : s.nextId = i := by simpa using hi
    subst hie
    show s.nextId ∈ (a :: s.artifacts).map Artifact.id
    rw [List.map_cons, ha]
    exact List.mem_cons_self _ _
  · intro _
    simp

/-- Changing only the flag and the delay-timer queue keeps the invariant. -/
theorem sceneInv_misc_only (s : SceneState) (h : SceneInv s) (b : Bool)
    (dt : List DelayTimer) :
    SceneInv { s with isProcessing := b, delayTimers := dt } := by
  constructor
  · exact h.nodup
  · exact h.bounded
  · exact h.activeMem
  · exact h.activeSome

/-- Activating a present artifact keeps the invariant. -/
theorem sceneInv_click (s : SceneState) (h : SceneInv s) (i : Nat) (hi : i ∈ idsOf s) :
    SceneInv { s with activeArtifactId := Option.some i } := by
  constructor
  · exact h.nodup
  · exact h.bounded
  · intro j hj
    have hji : i = j := by simpa using hj
    subst hji
    exact hi
  · intro _
    simp

/-- Every scene transition preserves the invariant. -/
theorem sceneStep_inv {s s' : SceneState} (h : SceneInv s) (hs : SceneStep s s') :
    SceneInv s' := by
  cases hs with
  | run ps ty np rnd s =>
      cases ps with
      | none =>
          simp only [runAlgorithm]
          exact sceneInv_prepend s h _ rfl _ _ _
      | artifactStreaming =>
          simp only [runAlgorithm]
          exact sceneInv_prepend s h _ rfl _ _ _
      | spreadsheetOverlay =>
          simp only [runAlgorithm]
          exact sceneInv_misc_only s h _ _
  | fire rnd s =>
      simp only [fireDelay]
      cases hd : s.delayTimers with
      | nil => exact h
      | cons d rest => exact sceneInv_prepend s h _ rfl _ _ _
  | tick rnd now i s =>
      rcases hf : s.streamTimers.find? (fun t => t.id == i) with _ | t
      · simpa only [streamTick, hf] using h
      · simp only [streamTick, hf]
        by_cases hp : (1 : ℚ) ≤ t.progress + 1 / 10
        · rw [if_pos hp]
          refine sceneInv_update_misc s h _ ?_ _ _
          intro a
          by_cases hai : a.id = i
          · simp [hai, generateMockArtifact]
          · simp [hai]
        · rw [if_neg hp]
          exact sceneInv_update_misc s h
            (fun a => if a.id = i then { a with progress := Option.some (t.progress + 1 / 10) } else a)
            (fun a => by by_cases hai : a.id = i <;> simp [hai])
            s.isProcessing
            (s.streamTimers.map (fun u =>
              if u.id = i then { u with progress := t.progress + 1 / 10 } else u))
  | click i s hmem =>
      exact sceneInv_click s h i hmem

/-- Every reachable scene state satisfies the invariant. -/
theorem sceneReachable_inv {s : SceneState} (h : SceneReachable s) : SceneInv s := by
  induction h with
  | init => exact sceneInv_init
  | step _ hs ih => exact sceneStep_inv ih hs

/-- C6: in every reachable state with at least one artifact, exactly one
artifact is active, and the derived inactive ranks — obtained by filtering
the ordered collection to non-active entries and taking each entry's
index — are exactly `0, 1, …, n-2` with no gaps or duplicates. -/
theorem c6_unique_active_and_rank_permutation (s : SceneState) (hr : SceneReachable s)
    (hne : s.artifacts ≠ []) :
    (s.artifacts.filter (fun a => Option.some a.id = s.activeArtifactId)).length = 1
    ∧ inactiveRanks s = List.range (s.artifacts.length - 1) := by
  have h := sceneReachable_inv hr
  obtain ⟨i, ha⟩ : ∃ i, s.activeArtifactId = Option.some i := by
    cases hact : s.activeArtifactId with
    | none => exact absurd hact (h.activeSome hne)
    | some j => exact ⟨j, rfl⟩
  have hmem : i ∈ idsOf s := h.activeMem i ha
  have hone : (s.artifacts.filter (fun a => a.id = i)).length = 1 :=
    filter_id_eq_length_one s.artifacts i h.nodup hmem
  have hsplit := length_filter_pos_neg s.artifacts (fun a => decide (a.id = i))
  have hfa : s.artifacts.filter (fun a => Option.some a.id = s.activeArtifactId)
      = s.artifacts.filter (fun a => a.id = i) := by
    apply List.filter_congr
    intro a _
    rw [ha]
    by_cases hai : a.id = i <;> simp [hai]
  have hfi : inactiveArtifacts s = s.artifacts.filter (fun a => !(decide (a.id = i))) := by
    unfold inactiveArtifacts
    apply List.filter_congr
    intro a _
    rw [ha]
    by_cases hai : a.id = i <;> simp [hai]
  constructor
  · rw [hfa]
    exact hone
  · have hnd : (inactiveArtifacts s).Nodup :=
      List.Nodup.filter _ (List.Nodup.of_map Artifact.id h.nodup)
    have hlen : (inactiveArtifacts s).length = s.artifacts.length - 1 := by
      rw [hfi]
      omega
    calc inactiveRanks s
        = (inactiveArtifacts s).map (fun a => (inactiveArtifacts s).indexOf a) := rfl
      _ = List.range (inactiveArtifacts s).length := nodup_map_indexOf _ hnd
      _ = List.range (s.artifacts.length - 1) := by rw [hlen]

/-- C6 witness: the theorem applied to the concrete reachable state obtained
by one immediate run on the empty collection. -/
theorem c6_unique_active_and_rank_permutation_witness :
    ((runAlgorithm ProgressStrategy.none (Option.some "A") (Option.some 0) cRnd
        initialSceneState).artifacts.filter (fun a =>
          Option.some a.id = (runAlgorithm ProgressStrategy.none (Option.some "A")
            (Option.some 0) cRnd initialSceneState).activeArtifactId)).length = 1
    ∧ inactiveRanks (runAlgorithm ProgressStrategy.none (Option.some "A") (Option.some 0)
        cRnd initialSceneState)
      = List.range ((runAlgorithm ProgressStrategy.none (Option.some "A") (Option.some 0)
          cRnd initialSceneState).artifacts.length - 1) :=
  c6_unique_active_and_rank_permutation _
    (SceneReachable.step SceneReachable.init
      (SceneStep.run ProgressStrategy.none (Option.some "A") (Option.some 0) cRnd
        initialSceneState))
    (by simp [runAlgorithm, initialSceneState])

/-- C10: selecting an existing artifact only changes the active id: the
ordered collection (same elements, same order) and every other piece of
state are untouched, so rank stays a derived view. -/
theorem c10_click_frame (s : SceneState) (i : Nat) :
    (clickArtifact i s).artifacts = s.artifacts
    ∧ (clickArtifact i s).activeArtifactId = Option.some i
    ∧ (clickArtifact i s).isProcessing = s.isProcessing
    ∧ (clickArtifact i s).streamTimers = s.streamTimers
    ∧ (clickArtifact i s).delayTimers = s.delayTimers
    ∧ (clickArtifact i s).nextId = s.nextId :=
  ⟨rfl, rfl, rfl, rfl, rfl, rfl⟩

/-- C2 counterexample: with `rate·dt = 2` (`delta = 1/3`) and a unit gap,
the source's unclamped tick lands at 2, strictly past the target 1, while
the clamped rule claimed by the spec would land exactly on the target. -/
theorem c2_pose_tick_counterexample :
    (advancePose
        { posX := 0, posY := 0, posZ := 0, rotX := 0, rotY := 0, rotZ := 0
          scale := 0, opacity := 0 }
        { posX := 1, posY := 1, posZ := 1, rotX := 1, rotY := 1, rotZ := 1
          scale := 1, opacity := 1 } (1 / 3)).posX = 2
    ∧ (1 : ℚ) < (advancePose
        { posX := 0, posY := 0, posZ := 0, rotX := 0, rotY := 0, rotZ := 0
          scale := 0, opacity := 0 }
        { posX := 1, posY := 1, posZ := 1, rotX := 1, rotY := 1, rotZ := 1
          scale := 1, opacity := 1 } (1 / 3)).posX
    ∧ (specAdvancePose
        { posX := 0, posY := 0, posZ := 0, rotX := 0, rotY := 0, rotZ := 0
          scale := 0, opacity := 0 }
        { posX := 1, posY := 1, posZ := 1, rotX := 1, rotY := 1, rotZ := 1
          scale := 1, opacity := 1 } (1 / 3)).posX = 1 := by
  refine ⟨?_, ?_, ?_⟩ <;>
    norm_num [advancePose, specAdvancePose, mathUtilsLerp, poseRate, min_def]

/-- C2 amended: each tick updates every pose component by
`current += (target - current) * (rate * dt)` with the single shared rate 6
and no clamping; whenever `rate·dt ≤ 1` this agrees with the clamped rule
the spec states, but for `rate·dt > 1` the updated value overshoots strictly
past the target whenever current and target differ. -/
theorem c2_pose_tick_amended (cur tgt : Pose) (delta : ℚ) :
    (poseRate * delta ≤ 1 → advancePose cur tgt delta = specAdvancePose cur tgt delta)
    ∧ (1 < poseRate * delta → cur.posX < tgt.posX →
        tgt.posX < (advancePose cur tgt delta).posX)
    ∧ (1 < poseRate * delta → cur.opacity < tgt.opacity →
        tgt.opacity < (advancePose cur tgt delta).opacity) := by
  refine ⟨?_, ?_, ?_⟩
  · intro h
    simp only [advancePose, specAdvancePose, mathUtilsLerp, min_eq_right h, Pose.mk.injEq]
    refine ⟨?_, ?_, ?_, ?_, ?_, ?_, ?_, ?_⟩ <;> ring_nf
  · intro h hc
    have hpos : 0 < (tgt.posX - cur.posX) * (poseRate * delta - 1) :=
      mul_pos (sub_pos.2 hc) (sub_pos.2 h)
    simp only [advancePose]
    nlinarith [hpos]
  · intro h hc
    have hpos : 0 < (tgt.opacity - cur.opacity) * (poseRate * delta - 1) :=
      mul_pos (sub_pos.2 hc) (sub_pos.2 h)
    simp only [advancePose, mathUtilsLerp]
    nlinarith [hpos]

/-- C2 amended witness: the agreement and overshoot branches at concrete
inputs (`rate·dt = 1/2` and `rate·dt = 2`). -/
theorem c2_pose_tick_amended_witness :
    poseRate * (1 / 12) ≤ 1
    ∧ advancePose
        { posX := 0, posY := 0, posZ := 0, rotX := 0, rotY := 0, rotZ := 0
          scale := 0, opacity := 0 }
        { posX := 1, posY := 1, posZ := 1, rotX := 1, rotY := 1, rotZ := 1
          scale := 1, opacity := 1 } (1 / 12)
      = specAdvancePose
        { posX := 0, posY := 0, posZ := 0, rotX := 0, rotY := 0, rotZ := 0
          scale := 0, opacity := 0 }
        { posX := 1, posY := 1, posZ := 1, rotX := 1, rotY := 1, rotZ := 1
          scale := 1, opacity := 1 } (1 / 12) :=
  ⟨by norm_num [poseRate],
   (c2_pose_tick_amended _ _ (1 / 12)).1 (by norm_num [poseRate])⟩

/-- Rewriting `THREE.MathUtils.lerp` into the incremental form used by
`Vector3.lerp`. -/
theorem mathUtilsLerp_eq (x y t : ℚ) : mathUtilsLerp x y t = x + (y - x) * t := by
  unfold mathUtilsLerp
  ring

/-- Scalar convergence: for an interpolation factor in `[0, 1]` the update
lands between the current value and the goal and does not move away from
the goal. -/
theorem lerp_step_approaches (c g t : ℚ) (h0 : 0 ≤ t) (h1 : t ≤ 1) :
    approaches c g (c + (g - c) * t) := by
  unfold approaches
  refine ⟨?_, ?_, ?_⟩
  · rcases le_total c g with hcg | hcg
    · rw [min_eq_left hcg]
      nlinarith
    · rw [min_eq_right hcg]
      nlinarith
  · rcases le_total c g with hcg | hcg
    · rw [max_eq_right hcg]
      nlinarith
    · rw [max_eq_left hcg]
      nlinarith
  · have hv : c + (g - c) * t - g = (c - g) * (1 - t) := by ring
    calc |c + (g - c) * t - g| = |(c - g) * (1 - t)| := by rw [hv]
      _ = |c - g| * |1 - t| := abs_mul _ _
      _ = |c - g| * (1 - t) := by
            rw [abs_of_nonneg (show (0 : ℚ) ≤ 1 - t by linarith)]
      _ ≤ |c - g| * 1 := mul_le_mul_of_nonneg_left (by linarith) (abs_nonneg _)
      _ = |c - g| := mul_one _

/-- C8: for every tick with `rate·dt ≤ 1` (rate = 6), each pose component
moves monotonically toward its target with no overshoot: the new value lies
between the old value and the target and is no farther from the target. -/
theorem c8_pose_tick_monotone (cur tgt : Pose) (delta : ℚ)
    (h0 : 0 ≤ delta) (h1 : poseRate * delta ≤ 1) :
    approaches cur.posX tgt.posX (advancePose cur tgt delta).posX
    ∧ approaches cur.posY tgt.posY (advancePose cur tgt delta).posY
    ∧ approaches cur.posZ tgt.posZ (advancePose cur tgt delta).posZ
    ∧ approaches cur.rotX tgt.rotX (advancePose cur tgt delta).rotX
    ∧ approaches cur.rotY tgt.rotY (advancePose cur tgt delta).rotY
    ∧ approaches cur.rotZ tgt.rotZ (advancePose cur tgt delta).rotZ
    ∧ approaches cur.scale tgt.scale (advancePose cur tgt delta).scale
    ∧ approaches cur.opacity tgt.opacity (advancePose cur tgt delta).opacity := by
  have hα0 : 0 ≤ poseRate * delta := by
    have h6 : (0 : ℚ) ≤ 6 := by norm_num
    simpa [poseRate] using mul_nonneg h6 h0
  simp only [advancePose, mathUtilsLerp_eq]
  exact ⟨lerp_step_approaches _ _ _ hα0 h1, lerp_step_approaches _ _ _ hα0 h1,
    lerp_step_approaches _ _ _ hα0 h1, lerp_step_approaches _ _ _ hα0 h1,
    lerp_step_approaches _ _ _ hα0 h1, lerp_step_approaches _ _ _ hα0 h1,
    lerp_step_approaches _ _ _ hα0 h1, lerp_step_approaches _ _ _ hα0 h1⟩

/-- C8 witness: the theorem at `delta = 1/6` (so `rate·dt = 1` exactly) on a
concrete pose pair. -/
theorem c8_pose_tick_monotone_witness :
    (0 : ℚ) ≤ 1 / 6
    ∧ approaches (0 : ℚ) 1 ((advancePose
        { posX := 0, posY := 0, posZ := 0, rotX := 0, rotY := 0, rotZ := 0
          scale := 0, opacity := 0 }
        { posX := 1, posY := 1, posZ := 1, rotX := 1, rotY := 1, rotZ := 1
          scale := 1, opacity := 1 } (1 / 6)).posX) :=
  ⟨by norm_num,
   (c8_pose_tick_monotone
      { posX := 0, posY := 0, posZ := 0, rotX := 0, rotY := 0, rotZ := 0
        scale := 0, opacity := 0 }
      { posX := 1, posY := 1, posZ := 1, rotX := 1, rotY := 1, rotZ := 1
        scale := 1, opacity := 1 } (1 / 6) (by norm_num)
      (by norm_num [poseRate])).1⟩

/-- C5: for every viewport extent and pixel size with positive width inputs,
the partitioner yields a grid box and a stage box of equal width and equal
height, separated on the x-axis by exactly the (positive) margin — so the
boxes never overlap — with the bottom bound clamped to the floor coordinate
`-1.9` and the common height clamped to at least 2 world units.  Purity is
inherent: `sceneLayout` is a function of its four inputs alone. -/
theorem c5_viewport_partitioner (vw vh sw sh : ℚ) (hvw : 0 < vw) (hsw : 0 < sw) :
    (sceneLayout vw vh sw sh).stage.width = (sceneLayout vw vh sw sh).grid.width
    ∧ (sceneLayout vw vh sw sh).stage.height = (sceneLayout vw vh sw sh).grid.height
    ∧ (sceneLayout vw vh sw sh).stage.x - (sceneLayout vw vh sw sh).stage.width / 2
        - ((sceneLayout vw vh sw sh).grid.x + (sceneLayout vw vh sw sh).grid.width / 2)
      = (sceneLayout vw vh sw sh).margin3D
    ∧ 0 < (sceneLayout vw vh sw sh).margin3D
    ∧ -(19 / 10) ≤ (sceneLayout vw vh sw sh).bottomY
    ∧ 2 ≤ (sceneLayout vw vh sw sh).grid.height := by
  refine ⟨rfl, rfl, by simp only [sceneLayout]; ring, ?_, ?_, ?_⟩
  · show 0 < 32 / sw * vw
    exact mul_pos (div_pos (by norm_num) hsw) hvw
  · exact le_max_right _ _
  · exact le_max_right _ _

/-- C5 witness: the theorem at a concrete viewport
(20 × 10 world units, 1280 × 720 pixels). -/
theorem c5_viewport_partitioner_witness :
    (0 : ℚ) < 20
    ∧ ((sceneLayout 20 10 1280 720).stage.width = (sceneLayout 20 10 1280 720).grid.width
      ∧ (sceneLayout 20 10 1280 720).stage.height = (sceneLayout 20 10 1280 720).grid.height
      ∧ (sceneLayout 20 10 1280 720).stage.x - (sceneLayout 20 10 1280 720).stage.width / 2
          - ((sceneLayout 20 10 1280 720).grid.x + (sceneLayout 20 10 1280 720).grid.width / 2)
        = (sceneLayout 20 10 1280 720).margin3D
      ∧ 0 < (sceneLayout 20 10 1280 720).margin3D
      ∧ -(19 / 10) ≤ (sceneLayout 20 10 1280 720).bottomY
      ∧ 2 ≤ (sceneLayout 20 10 1280 720).grid.height) :=
  ⟨by norm_num, c5_viewport_partitioner 20 10 1280 720 (by norm_num) (by norm_num)⟩

/-- C4 counterexample: with the clip rectangle clamped to its one-cell
minimum (`0.26 × 0.09`) the generated cell list is empty — the top margin
(0.5) pushes even the header row's bottom edge below the clip's bottom
bound, so not even header cells survive. -/
theorem c4_clip_cells_counterexample :
    generateCells 2 2 (26 / 100) (9 / 100) = [] := by
  have h2 : List.range 2 = [0, 1] := rfl
  simp only [generateCells, h2]
  norm_num [List.flatMap_cons, List.filterMap_cons, cellWidth, cellHeight, cellGap, topMargin]

/-- C4 amended: resize/clip deltas are always clamped rather than rejected —
resize never yields fewer than 2 rows or 2 columns, clip never yields an
extent below one cell (`cellWidth+gap` × `cellHeight+gap`), and there is no
error path.  However, the cell list is only guaranteed nonempty (with a
header cell) once the clip extent clears the top margin: for widths
≥ 0.249 and heights ≥ 0.329 the header corner cell is generated, while
below that (in particular at the one-cell minimum) the list may be empty. -/
theorem c4_clamping_amended :
    (∀ (ic ir : ℤ) (dx dy : ℚ), 2 ≤ (resizeMove ic ir dx dy).1
      ∧ 2 ≤ (resizeMove ic ir dx dy).2)
    ∧ (∀ iw ih dx dy : ℚ, cellWidth + cellGap ≤ (clipMove iw ih dx dy).1
      ∧ cellHeight + cellGap ≤ (clipMove iw ih dx dy).2)
    ∧ (∀ (rows cols : Nat) (cw ch : ℚ), 0 < rows → 0 < cols →
        249 / 1000 ≤ cw → 329 / 1000 ≤ ch →
        ∃ cell ∈ generateCells rows cols cw ch, cell.isHeader = true) := by
  refine ⟨fun ic ir dx dy => ⟨le_max_left _ _, le_max_left _ _⟩,
    fun iw ih dx dy => ⟨le_max_left _ _, le_max_left _ _⟩, ?_⟩
  intro rows cols cw ch hr hc hcw hch
  refine ⟨{ row := 0, col := 0, x := -(cw / 2) + cellWidth / 2
            y := ch / 2 - cellHeight / 2 - topMargin / 2
            z := containerDepth / 2 + cellDepth / 2, isHeader := true }, ?_, rfl⟩
  simp only [generateCells, List.mem_flatMap]
  refine ⟨0, List.mem_range.2 hr, ?_⟩
  rw [List.mem_filterMap]
  refine ⟨0, List.mem_range.2 hc, ?_⟩
  have hcond : ¬(-(cw / 2) + cellWidth / 2 + ((0 : Nat) : ℚ) * (cellWidth + cellGap)
        + cellWidth / 2 > cw / 2 + 1 / 1000
      ∨ ch / 2 - cellHeight / 2 - topMargin / 2 - ((0 : Nat) : ℚ) * (cellHeight + cellGap)
        - cellHeight / 2 < -(ch / 2) - 1 / 1000) := by
    push_neg
    constructor
    · simp only [Nat.cast_zero, zero_mul, add_zero]
      unfold cellWidth
      linarith
    · simp only [Nat.cast_zero, zero_mul, sub_zero]
      unfold cellHeight topMargin
      linarith
  rw [if_neg hcond]
  simp

/-- C4 amended witness: resize clamping at a large negative delta, clip
clamping at a large negative delta, and a surviving header cell for the
default 121 × 41 grid at a clip extent above the thresholds. -/
theorem c4_clamping_amended_witness :
    (2 ≤ (resizeMove 41 121 (-100) 100).1 ∧ 2 ≤ (resizeMove 41 121 (-100) 100).2)
    ∧ (cellWidth + cellGap ≤ (clipMove 5 5 (-100) 100).1
      ∧ cellHeight + cellGap ≤ (clipMove 5 5 (-100) 100).2)
    ∧ ((0 : Nat) < 121 ∧ (0 : Nat) < 41 ∧ (249 / 1000 : ℚ) ≤ 3 ∧ (329 / 1000 : ℚ) ≤ 2
      ∧ ∃ cell ∈ generateCells 121 41 3 2, cell.isHeader = true) :=
  ⟨c4_clamping_amended.1 41 121 (-100) 100,
   c4_clamping_amended.2.1 5 5 (-100) 100,
   by decide, by decide, by norm_num, by norm_num,
   c4_clamping_amended.2.2 121 41 3 2 (by decide) (by decide) (by norm_num) (by norm_num)⟩

/-- C9: the grouping variant's bucket is decided by the case-insensitive
keyword tests in source order (descriptive, linear, cluster, time), any
unmatched title falls back to `rank mod 4`; the bucket alone fixes the x/z
slot and yaw along the arc (artifacts of one bucket differ exactly by the
stack offsets), and within a bucket the x/y offsets grow and the depth
recedes strictly with rank. -/
theorem c9_grouping_placement :
    (∀ (t : String) (r : Nat), titleHasKeyword t "descriptive" = true →
        categoryIndex t r = 0)
    ∧ (∀ (t : String) (r : Nat), titleHasKeyword t "descriptive" = false →
        titleHasKeyword t "linear" = true → categoryIndex t r = 1)
    ∧ (∀ (t : String) (r : Nat), titleHasKeyword t "descriptive" = false →
        titleHasKeyword t "linear" = false → titleHasKeyword t "cluster" = true →
        categoryIndex t r = 2)
    ∧ (∀ (t : String) (r : Nat), titleHasKeyword t "descriptive" = false →
        titleHasKeyword t "linear" = false → titleHasKeyword t "cluster" = false →
        titleHasKeyword t "time" = true → categoryIndex t r = 3)
    ∧ (∀ (t : String) (r : Nat), titleHasKeyword t "descriptive" = false →
        titleHasKeyword t "linear" = false → titleHasKeyword t "cluster" = false →
        titleHasKeyword t "time" = false → categoryIndex t r = r % 4)
    ∧ (∀ (t1 t2 : String) (r1 r2 : Nat) (bw bx b_y bh : ℚ),
        categoryIndex t1 r1 = categoryIndex t2 r2 →
        (groupingPose t1 r1 bw bx b_y bh).2 = (groupingPose t2 r2 bw bx b_y bh).2
        ∧ (groupingPose t2 r2 bw bx b_y bh).1.1 - (groupingPose t1 r1 bw bx b_y bh).1.1
          = (((r2 : Nat) : ℚ) - ((r1 : Nat) : ℚ)) * (15 / 100)
        ∧ (groupingPose t2 r2 bw bx b_y bh).1.2.1 - (groupingPose t1 r1 bw bx b_y bh).1.2.1
          = (((r2 : Nat) : ℚ) - ((r1 : Nat) : ℚ)) * (15 / 100)
        ∧ (groupingPose t2 r2 bw bx b_y bh).1.2.2 - (groupingPose t1 r1 bw bx b_y bh).1.2.2
          = (((r2 : Nat) : ℚ) - ((r1 : Nat) : ℚ)) * (-(30 / 100)))
    ∧ (∀ (t1 t2 : String) (r1 r2 : Nat) (bw bx b_y bh : ℚ), r1 < r2 →
        categoryIndex t1 r1 = categoryIndex t2 r2 →
        (groupingPose t1 r1 bw bx b_y bh).1.1 < (groupingPose t2 r2 bw bx b_y bh).1.1
        ∧ (groupingPose t1 r1 bw bx b_y bh).1.2.1 < (groupingPose t2 r2 bw bx b_y bh).1.2.1
        ∧ (groupingPose t2 r2 bw bx b_y bh).1.2.2
          < (groupingPose t1 r1 bw bx b_y bh).1.2.2) := by
  have hdelta : ∀ (t1 t2 : String) (r1 r2 : Nat) (bw bx b_y bh : ℚ),
      categoryIndex t1 r1 = categoryIndex t2 r2 →
      (groupingPose t1 r1 bw bx b_y bh).2 = (groupingPose t2 r2 bw bx b_y bh).2
      ∧ (groupingPose t2 r2 bw bx b_y bh).1.1 - (groupingPose t1 r1 bw bx b_y bh).1.1
        = (((r2 : Nat) : ℚ) - ((r1 : Nat) : ℚ)) * (15 / 100)
      ∧ (groupingPose t2 r2 bw bx b_y bh).1.2.1 - (groupingPose t1 r1 bw bx b_y bh).1.2.1
        = (((r2 : Nat) : ℚ) - ((r1 : Nat) : ℚ)) * (15 / 100)
      ∧ (groupingPose t2 r2 bw bx b_y bh).1.2.2 - (groupingPose t1 r1 bw bx b_y bh).1.2.2
        = (((r2 : Nat) : ℚ) - ((r1 : Nat) : ℚ)) * (-(30 / 100)) := by
    intro t1 t2 r1 r2 bw bx b_y bh hk
    simp only [groupingPose, ← hk]
    refine ⟨trivial, ?_, ?_, ?_⟩ <;> ring
  refine ⟨?_, ?_, ?_, ?_, ?_, hdelta, ?_⟩
  · intro t r h
    simp [categoryIndex, h]
  · intro t r h1 h2
    simp [categoryIndex, h1, h2]
  · intro t r h1 h2 h3
    simp [categoryIndex, h1, h2, h3]
  · intro t r h1 h2 h3 h4
    simp [categoryIndex, h1, h2, h3, h4]
  · intro t r h1 h2 h3 h4
    simp [categoryIndex, h1, h2, h3, h4]
  · intro t1 t2 r1 r2 bw bx b_y bh hlt hk
    obtain ⟨_, hdx, hdy, hdz⟩ := hdelta t1 t2 r1 r2 bw bx b_y bh hk
    have hcast : ((r1 : Nat) : ℚ) < ((r2 : Nat) : ℚ) := by exact_mod_cast hlt
    refine ⟨by nlinarith, by nlinarith, by nlinarith⟩

/-- C9 witness: keyword matching is case-insensitive (an uppercase
"CLUSTERING" title lands in bucket 2 regardless of rank), and an
unrecognised title at rank 7 falls back to bucket `7 mod 4 = 3`. -/
theorem c9_grouping_placement_witness :
    categoryIndex "Deep CLUSTERING run" 9 = 2
    ∧ categoryIndex "Custom" 7 = 7 % 4 :=
  ⟨c9_grouping_placement.2.2.1 "Deep CLUSTERING run" 9 (by decide) (by decide) (by decide),
   c9_grouping_placement.2.2.2.2.1 "Custom" 7 (by decide) (by decide) (by decide) (by decide)⟩

/-- C3 counterexample: starting a streaming run sets `isProcessing`, yet a
second context-menu run request submitted while the flag is set is *not*
ignored — the `Spreadsheet` receives
`isProcessing && progressStrategy === 'spreadsheet-overlay'`, which is false
under `'artifact-streaming'` — so a second interval starts and two streaming
timers are in flight at once. -/
theorem c3_processing_guard_counterexample :
    (streamRun cRnd (Option.some "Clustering")).isProcessing = true
    ∧ (streamRun cRnd (Option.some "Clustering")).streamTimers.length = 1
    ∧ (contextMenuRun InteractionStrategy.contextualMenu ProgressStrategy.artifactStreaming
        "Clustering" cRnd (streamRun cRnd (Option.some "Clustering"))).streamTimers.length
      = 2 := by
  refine ⟨rfl, rfl, ?_⟩
  rfl

/-- C3 amended: `isProcessing` is asserted at the start of every streaming or
fixed-delay run and cleared exactly when that run completes, and a
context-menu request is ignored while the *propagated* flag
(`isProcessing ∧ strategy = 'spreadsheet-overlay'`) is set; under
`'artifact-streaming'` the propagated flag is false, so new run requests are
not ignored and the number of in-flight streaming timers can grow beyond
one. -/
theorem c3_processing_guard_amended (ty : Option String) (np : Option Nat)
    (rnd : MockRand) (s : SceneState) (tys : String) :
    (runAlgorithm ProgressStrategy.artifactStreaming ty np rnd s).isProcessing = true
    ∧ (runAlgorithm ProgressStrategy.spreadsheetOverlay ty np rnd s).isProcessing = true
    ∧ (∀ (now i : Nat) (t : StreamTimer),
        s.streamTimers.find? (fun u => u.id == i) = Option.some t →
        1 ≤ t.progress + 1 / 10 →
        (streamTick rnd now i s).isProcessing = false)
    ∧ (s.isProcessing = true →
        contextMenuRun InteractionStrategy.contextualMenu ProgressStrategy.spreadsheetOverlay
          tys rnd s = s)
    ∧ (contextMenuRun InteractionStrategy.contextualMenu ProgressStrategy.artifactStreaming
        tys rnd s).streamTimers.length = s.streamTimers.length + 1 := by
  refine ⟨rfl, rfl, ?_, ?_, ?_⟩
  · intro now i t hf hp
    simp only [streamTick, hf]
    rw [if_pos hp]
  · intro hp
    unfold contextMenuRun
    rw [if_pos]
    right
    simp [spreadsheetIsProcessing, hp]
  · unfold contextMenuRun
    rw [if_neg]
    · simp [runAlgorithm]
    · simp [spreadsheetIsProcessing]

/-- C3 amended witness: the clauses applied to the concrete state after one
streaming run on the empty collection. -/
theorem c3_processing_guard_amended_witness :
    (streamRun cRnd Option.none).isProcessing = true
    ∧ (contextMenuRun InteractionStrategy.contextualMenu ProgressStrategy.artifactStreaming
        "Clustering" cRnd (streamRun cRnd Option.none)).streamTimers.length
      = (streamRun cRnd Option.none).streamTimers.length + 1 :=
  ⟨(c3_processing_guard_amended Option.none Option.none cRnd initialSceneState "x").1,
   (c3_processing_guard_amended Option.none Option.none cRnd (streamRun cRnd Option.none)
      "Clustering").2.2.2.2⟩

/-- After prepending a fresh artifact and activating it, the old head of the
collection derives inactive rank 0. -/
theorem rank_zero_of_head (s : SceneState) (a0 : Artifact) (t : List Artifact)
    (newA : Artifact) (hid : newA.id = s.nextId)
    (hA : s.artifacts = a0 :: t) (hB : ∀ b ∈ s.artifacts, b.id < s.nextId)
    (s2 : SceneState) (hart : s2.artifacts = newA :: s.artifacts)
    (hact : s2.activeArtifactId = Option.some s.nextId) :
    inactiveRankOf s2 a0 = 0 := by
  unfold inactiveRankOf inactiveArtifacts
  rw [hart, hact, hA, List.filter_cons, List.filter_cons]
  have h1 : (decide (Option.some newA.id ≠ Option.some s.nextId)) = false := by
    simp [hid]
  have h2 : (decide (Option.some a0.id ≠ Option.some s.nextId)) = true := by
    have hb := hB a0 (hA ▸ List.mem_cons_self a0 t)
    simp
    omega
  rw [h1, h2]
  simp only [Bool.false_eq_true, if_false, if_true]
  exact List.indexOf_cons_self a0 _

/-- C7 amended: under every policy the created artifact is prepended to the
collection and activated (for fixed-delay this happens when the delayed
completion fires); the previously active artifact derives inactive rank 0
exactly in the usual case that it sits at the head of the collection (as it
does right after its own creation) — activation by click does not reorder,
so an older previously-active artifact keeps its deeper index instead. -/
theorem c7_creation_prepends_amended (ty : Option String) (np : Option Nat)
    (rnd : MockRand) (s : SceneState) :
    ((runAlgorithm ProgressStrategy.none ty np rnd s).artifacts
        = generateMockArtifact rnd s.nextId ty (np.getD 6) s.nextId :: s.artifacts
      ∧ (runAlgorithm ProgressStrategy.none ty np rnd s).activeArtifactId
        = Option.some s.nextId)
    ∧ ((∃ a, (runAlgorithm ProgressStrategy.artifactStreaming ty np rnd s).artifacts
          = a :: s.artifacts ∧ a.id = s.nextId ∧ a.status = ArtifactStatus.pending)
      ∧ (runAlgorithm ProgressStrategy.artifactStreaming ty np rnd s).activeArtifactId
        = Option.some s.nextId)
    ∧ (∀ d rest, s.delayTimers = d :: rest →
        (fireDelay rnd s).artifacts
          = generateMockArtifact rnd s.nextId d.ty (d.numPlots.getD 6) s.nextId :: s.artifacts
        ∧ (fireDelay rnd s).activeArtifactId = Option.some s.nextId)
    ∧ (∀ (a0 : Artifact) (t : List Artifact), s.artifacts = a0 :: t →
        (∀ b ∈ s.artifacts, b.id < s.nextId) →
        inactiveRankOf (runAlgorithm ProgressStrategy.none ty np rnd s) a0 = 0
        ∧ inactiveRankOf (runAlgorithm ProgressStrategy.artifactStreaming ty np rnd s) a0
          = 0) := by
  refine ⟨⟨rfl, rfl⟩, ⟨⟨_, rfl, rfl, rfl⟩, rfl⟩, ?_, ?_⟩
  · intro d rest hd
    unfold fireDelay
    rw [hd]
    exact ⟨rfl, rfl⟩
  · intro a0 t hA hB
    constructor
    · exact rank_zero_of_head s a0 t _ (by simp [generateMockArtifact]) hA hB _ rfl rfl
    · exact rank_zero_of_head s a0 t _ rfl hA hB _ rfl rfl

/-- C7 counterexample: run, run, click the oldest artifact (id 0), then run
again — the previously active artifact (id 0) derives inactive rank 1, not
0, because activation by click did not move it to the front. -/
theorem c7_rank_zero_counterexample :
    c7ClickedState.activeArtifactId = Option.some 0
    ∧ c7FinalState.activeArtifactId = Option.some 2
    ∧ inactiveRankOf c7FinalState (generateMockArtifact cRnd 0 (Option.some "A") 0 0)
      = 1 := by
  refine ⟨rfl, rfl, ?_⟩
  rfl

/-- C7 amended witness: the prepend/activate clauses and the rank-0 clause
applied to the concrete one-artifact state created by an immediate run. -/
theorem c7_creation_prepends_amended_witness :
    inactiveRankOf
      (runAlgorithm ProgressStrategy.none (Option.some "A") (Option.some 0) cRnd
        (runAlgorithm ProgressStrategy.none (Option.some "A") (Option.some 0) cRnd
          initialSceneState))
      (generateMockArtifact cRnd 0 (Option.some "A") 0 0) = 0 :=
  ((c7_creation_prepends_amended (Option.some "A") (Option.some 0) cRnd
      (runAlgorithm ProgressStrategy.none (Option.some "A") (Option.some 0) cRnd
        initialSceneState)).2.2.2
    (generateMockArtifact cRnd 0 (Option.some "A") 0 0) [] rfl
    (by decide)).1

/-- C1: evaluation of the program's binary64 accumulation at the claim's
scenario.  Ten firings of `progress += 0.1` accumulate to exactly
`(2^53 - 1) * 2^(-53) = 0.9999999999999999 < 1`, so the `progress >= 1`
test fails on the 10th firing and the artifact is still pending; the
threshold is first crossed — and the pending entry replaced by the complete
artifact — only on the 11th firing.  The spec's fixed-step-0.1 scenario
(complete after 10 firings, progress reaching exactly 1) states the intended
behavior; the floating-point accumulation in the code falls short of it. -/
theorem c1_binary64_ten_firings :
    progressAfterFirings 10 = { m := 9007199254740991, e := -53 }
    ∧ fpGeOne (progressAfterFirings 10) = false
    ∧ fpGeOne (progressAfterFirings 11) = true
    ∧ fpVal (progressAfterFirings 10) < 1 := by
  refine ⟨by decide, by decide, by decide, ?_⟩
  have h : progressAfterFirings 10 = { m := 9007199254740991, e := -53 } := by decide
  rw [h]
  show ((9007199254740991 : Nat) : ℚ) * (2 : ℚ) ^ (-53 : ℤ) < 1
  norm_num
